import Mathlib

/-!
Verification of the model-resource reconciliation core of
terraform-provider-openwebui, embedded shallowly from
internal/provider/models_resource.go and the model data source.

Terraform framework attribute values carry a three-way state
(null, unknown, or a known value); we embed that directly.
-/

/-- Terraform attribute value: null, unknown, or a known value
(embeds types.String / types.Bool / types.Object state). -/
inductive TFValue (α : Type) where
  | null
  | unknown
  | value (a : α)
  deriving Repr, DecidableEq

/-- Embeds the framework method IsNull(). -/
def TFValue.isNull {α : Type} : TFValue α → Bool
  | TFValue.null => true
  | _ => false

/-- Embeds the framework method IsUnknown(). -/
def TFValue.isUnknown {α : Type} : TFValue α → Bool
  | TFValue.unknown => true
  | _ => false

/-- Embeds types.Bool.ValueBool(): the known value, false when null or unknown. -/
def TFValue.valueBool : TFValue Bool → Bool
  | TFValue.value b => b
  | _ => false

/-- Embeds types.String.ValueString(): the known value, "" when null or unknown. -/
def TFValue.valueString : TFValue String → String
  | TFValue.value s => s
  | _ => ""

/-- One side of the access-control object: read or write entity with
group and user id lists (models_resource.go schema, access_control). -/
structure AccessEntry where
  group_ids : List String
  user_ids : List String
  deriving Repr, DecidableEq

/-- The access_control nested object: read and write entries. -/
structure AccessControl where
  read : AccessEntry
  write : AccessEntry
  deriving Repr, DecidableEq

/-- Model parameters nested object. Field list follows the params wire
shape of the spec (system, sampling controls, reasoning_effort,
function_calling); numeric sampling fields are embedded as integers
scaled from the wire floats, which no claim inspects. -/
structure ModelParams where
  system : TFValue String
  stream_response : TFValue Bool
  temperature : TFValue Int
  reasoning_effort : TFValue String
  top_p : TFValue Int
  top_k : TFValue Int
  min_p : TFValue Int
  max_tokens : TFValue Int
  seed : TFValue Int
  frequency_penalty : TFValue Int
  repeat_last_n : TFValue Int
  num_ctx : TFValue Int
  num_batch : TFValue Int
  num_keep : TFValue Int
  function_calling : TFValue String
  deriving Repr, DecidableEq

/-- Model metadata nested object (meta attribute). -/
structure ModelMeta where
  profile_image_url : TFValue String
  description : TFValue String
  vision : TFValue Bool
  usage : TFValue Bool
  citations : TFValue Bool
  tags : List String
  filter_ids : List String
  deriving Repr, DecidableEq

/-- The models.Model Terraform object. The struct itself lives in the
client/models package, absent from the sources; its fields are taken from
the resource schema in models_resource.go and the model wire shape. -/
structure Model where
  ID : TFValue String
  UserID : TFValue String
  BaseModelID : TFValue String
  Name : TFValue String
  Params : ModelParams
  Meta : ModelMeta
  AccessControl : TFValue AccessControl
  IsActive : TFValue Bool
  IsPrivate : TFValue Bool
  CreatedAt : TFValue Int
  UpdatedAt : TFValue Int
  deriving Repr, DecidableEq

/-- An attribute-scoped diagnostic (resp.Diagnostics.AddAttributeError). -/
structure AttrError where
  path : String
  summary : String
  detail : String
  deriving Repr, DecidableEq

/-- The synthesized default access control with all four lists empty,
built by PlanModifyObject when is_private is true and access_control
is null or unknown. -/
def defaultAccessControl : AccessControl :=
  { read := { group_ids := [], user_ids := [] }
    write := { group_ids := [], user_ids := [] } }

/-- Embeds AccessControlDefaultModifier.PlanModifyObject
(models_resource.go lines 412-456). Inputs are the planned is_private
and access_control values; the result is either the pair of attribute
errors or the resolved plan value for access_control. The framework
starts resp.PlanValue at the planned value, and the two trailing
if statements run in sequence, mirrored here. -/
def planModifyObject (isPrivate : TFValue Bool) (accessControl : TFValue AccessControl) :
    Except (List AttrError) (TFValue AccessControl) :=
  if !isPrivate.valueBool && !(accessControl.isNull || accessControl.isUnknown) then
    Except.error
      [ { path := "is_private", summary := "Invalid Value"
          detail := "is_private must be true when access_control is specified." }
      , { path := "access_control", summary := "Invalid Value"
          detail := "access_control cannot be specified when is_private is false." } ]
  else
    let planValue := accessControl
    let planValue :=
      if isPrivate.valueBool && (accessControl.isUnknown || accessControl.isNull) then
        TFValue.value defaultAccessControl
      else planValue
    let planValue :=
      if !isPrivate.valueBool then TFValue.null else planValue
    Except.ok planValue

/-- Result of one resource operation: the state written back by
resp.State.Set (none when the operation returned before reaching it)
and the diagnostics added (resp.Diagnostics.AddError summaries). -/
structure OpResult where
  newState : Option Model
  errors : List String
  deriving Repr, DecidableEq

/-- Embeds ModelResource.Create (models_resource.go lines 301-323),
parametrized by the outcome of r.client.CreateModel. On success the
returned model's ID is checked for null before state is set. -/
def modelResourceCreate (createResult : Except String Model) : OpResult :=
  match createResult with
  | Except.error e => { newState := none, errors := ["Error creating model: " ++ e] }
  | Except.ok model =>
    if model.ID.isNull then
      { newState := none
        errors := ["Error creating model: Model ID is null after creation"] }
    else
      { newState := some model, errors := [] }

/-- Embeds ModelResource.Read (models_resource.go lines 325-346),
parametrized by the outcome of r.client.GetModel(state.ID.ValueString()):
a null ID on the response is overwritten with the stored state.ID. -/
def modelResourceRead (state : Model) (getResult : Except String Model) : OpResult :=
  match getResult with
  | Except.error e => { newState := none, errors := ["Error reading model: " ++ e] }
  | Except.ok model =>
    let merged := if model.ID.isNull then { model with ID := state.ID } else model
    { newState := some merged, errors := [] }

/-- Embeds the request construction of ModelResource.Update
(models_resource.go lines 363-366): the id argument passed to
r.client.UpdateModel and the payload, whose ID is overwritten with the
stored state.ID before dispatch. -/
def updateDispatch (plan state : Model) : String × Model :=
  (state.ID.valueString, { plan with ID := state.ID })

/-- Embeds ModelResource.Update (models_resource.go lines 348-379),
parametrized by the outcome of r.client.UpdateModel on the dispatched
request; the response merge is the same null-ID patch as Read. -/
def modelResourceUpdate (plan state : Model) (updateResult : Except String Model) : OpResult :=
  let _dispatched := updateDispatch plan state
  match updateResult with
  | Except.error e => { newState := none, errors := ["Error updating model: " ++ e] }
  | Except.ok model =>
    let merged := if model.ID.isNull then { model with ID := state.ID } else model
    { newState := some merged, errors := [] }

/-- Modelled from the spec: the models client (client/models package) is
absent from the sources. Per the Remote Resource Store interface the
store keeps resources addressable by identity; we model it as an
association list from identity string to resource. -/
structure Store where
  items : List (String × Model)
  deriving Repr, DecidableEq

/-- Modelled from the spec: Get(id) returns the stored resource with
that identity or a not-found error. -/
def Store.getModel (s : Store) (id : String) : Except String Model :=
  match s.items.lookup id with
  | some m => Except.ok m
  | none => Except.error ("model not found: " ++ id)

/-- Modelled from the spec: Create(spec) stores the resource under its
identity (the id attribute is Required, supplied by the caller) and
returns the created resource together with the updated store. -/
def Store.createModel (s : Store) (m : Model) : Except String (Model × Store) :=
  Except.ok (m, { items := (m.ID.valueString, m) :: s.items })

/-- Embeds the OneOf string validator attached in the schemas
(stringvalidator.OneOf): a null or unknown value is skipped, a known
value must be one of the allowed strings. -/
def oneOfCheck (allowed : List String) (v : TFValue String) : Bool :=
  match v with
  | TFValue.null => true
  | TFValue.unknown => true
  | TFValue.value s => allowed.contains s

/-- Embeds the declared validators of the model resource schema
(models_resource.go lines 136-142): params.reasoning_effort must be one
of low, medium, high when set. Returns the validation diagnostics. -/
def schemaValidate (m : Model) : List String :=
  if oneOfCheck ["low", "medium", "high"] m.Params.reasoning_effort then []
  else ["Invalid Attribute Value Match: params.reasoning_effort must be one of: low, medium, high"]

/-- Embeds the declared validators of the model data source schema:
params.function_calling must be native when set. -/
def schemaValidateDS (m : Model) : List String :=
  if oneOfCheck ["native"] m.Params.function_calling then []
  else ["Invalid Attribute Value Match: params.function_calling must be one of: native"]

/-- Result of the plan-then-apply pipeline for Create: whether the
Remote Resource Store was reached, and the stage outcome. -/
inductive PipelineResult where
  | validationFailure (errs : List String)
  | planFailure (errs : List AttrError)
  | applied (r : OpResult)
  deriving Repr, DecidableEq

/-- Embeds the defaulting pass at plan time: PlanModifyObject applied to
the planned is_private and access_control attributes of the desired
model, writing the resolved plan value back into the model. -/
def resolveModel (m : Model) : Except (List AttrError) Model :=
  match planModifyObject m.IsPrivate m.AccessControl with
  | Except.error es => Except.error es
  | Except.ok ac => Except.ok { m with AccessControl := ac }

/-- Embeds the Terraform plan-then-apply flow for a model Create: schema
validators run first, then the plan modifier; only if both pass is the
store's create dispatched and ModelResource.Create's logic applied. The
Bool records whether any store operation was invoked. -/
def createPipeline (m : Model) (s : Store) : Bool × PipelineResult :=
  match schemaValidate m with
  | e :: es => (false, PipelineResult.validationFailure (e :: es))
  | [] =>
    match resolveModel m with
    | Except.error es => (false, PipelineResult.planFailure es)
    | Except.ok eff =>
      match Store.createModel s eff with
      | Except.error e => (true, PipelineResult.applied
          { newState := none, errors := ["Error creating model: " ++ e] })
      | Except.ok (model, _) => (true, PipelineResult.applied (modelResourceCreate (Except.ok model)))

/-- An observable side effect of the model data source Read, in
execution order. -/
inductive Effect where
  | setState (m : Option Model)
  | addError (e : String)
  deriving Repr, DecidableEq

/-- Embeds ModelDataSource.Read, parametrized by the outcome of
d.client.GetModel(config.ID.ValueString()), which in Go may return a nil
pointer without an error (embedded as ok none). The effects are listed
in the order the code performs them: resp.State.Set runs before the nil
check that adds the not-found error. -/
def modelDataSourceRead (config : Model) (getResult : Except String (Option Model)) :
    List Effect :=
  match getResult with
  | Except.error e => [Effect.addError ("Error reading model: " ++ e)]
  | Except.ok foundModel =>
    Effect.setState foundModel ::
      (if foundModel.isNone then
        [Effect.addError ("Error reading model: No model found with name: " ++ config.ID.valueString)]
      else [])

/-- A model parameters object with every attribute null. -/
def blankParams : ModelParams :=
  { system := TFValue.null, stream_response := TFValue.null, temperature := TFValue.null
    reasoning_effort := TFValue.null, top_p := TFValue.null, top_k := TFValue.null
    min_p := TFValue.null, max_tokens := TFValue.null, seed := TFValue.null
    frequency_penalty := TFValue.null, repeat_last_n := TFValue.null, num_ctx := TFValue.null
    num_batch := TFValue.null, num_keep := TFValue.null, function_calling := TFValue.null }

/-- A model metadata object with every attribute null or empty. -/
def blankMeta : ModelMeta :=
  { profile_image_url := TFValue.null, description := TFValue.null, vision := TFValue.null
    usage := TFValue.null, citations := TFValue.null, tags := [], filter_ids := [] }

/-- A model with every attribute null, used as a base for concrete instances. -/
def blankModel : Model :=
  { ID := TFValue.null, UserID := TFValue.null, BaseModelID := TFValue.null
    Name := TFValue.null, Params := blankParams, Meta := blankMeta
    AccessControl := TFValue.null, IsActive := TFValue.null, IsPrivate := TFValue.null
    CreatedAt := TFValue.null, UpdatedAt := TFValue.null }

/-- The store with no resources. -/
def emptyStore : Store := { items := [] }

/-- The pair of attribute errors raised on the privacy conflict. -/
def conflictErrors : List AttrError :=
  [ { path := "is_private", summary := "Invalid Value"
      detail := "is_private must be true when access_control is specified." }
  , { path := "access_control", summary := "Invalid Value"
      detail := "access_control cannot be specified when is_private is false." } ]

/-- Replaces the params.reasoning_effort attribute of a model. -/
def setReasoningEffort (m : Model) (v : TFValue String) : Model :=
  { m with Params := { m.Params with reasoning_effort := v } }

/-- Replaces the params.function_calling attribute of a model. -/
def setFunctionCalling (m : Model) (v : TFValue String) : Model :=
  { m with Params := { m.Params with function_calling := v } }

example : planModifyObject (TFValue.value true) TFValue.null
    = Except.ok (TFValue.value defaultAccessControl) := rfl

example : planModifyObject (TFValue.value false) (TFValue.value defaultAccessControl)
    = Except.error conflictErrors := rfl

example : planModifyObject (TFValue.value false) TFValue.unknown = Except.ok TFValue.null := rfl

/-- Claim C1, counterexample: with stored id "m-1" and a remote Read
response whose id is the known empty string "", the merged result's id
is "" and not "m-1": the code patches only a null identity
(model.ID.IsNull()), not an empty known one. -/
theorem read_empty_string_id_not_preserved :
  (modelResourceRead { blankModel with ID := TFValue.value "m-1" }
      (Except.ok { blankModel with ID := TFValue.value "" })).newState.map Model.ID
    = some (TFValue.value "") ∧
  (modelResourceRead { blankModel with ID := TFValue.value "m-1" }
      (Except.ok { blankModel with ID := TFValue.value "" })).newState.map Model.ID
    ≠ some (TFValue.value "m-1") := ⟨rfl, by decide⟩

/-- Claim C1, amended: for every Read or Update on a model resource, if
the stored identity is a known value and the remote response's identity
is null (absent), the merged result returned to the caller carries the
stored identity. -/
theorem read_update_preserve_id_when_remote_null (plan state m : Model) (i : String) :
  (modelResourceRead { state with ID := TFValue.value i }
      (Except.ok { m with ID := TFValue.null })).newState
    = some { m with ID := TFValue.value i } ∧
  (modelResourceUpdate plan { state with ID := TFValue.value i }
      (Except.ok { m with ID := TFValue.null })).newState
    = some { m with ID := TFValue.value i } := ⟨rfl, rfl⟩

/-- Claim C2: whatever identity the plan contains, the update request
dispatched to the store carries the pre-existing stored identity, both
as the id argument and inside the payload. -/
theorem update_dispatches_stored_identity (plan state : Model) :
  (updateDispatch plan state).2.ID = state.ID ∧
  (updateDispatch plan state).1 = state.ID.valueString := ⟨rfl, rfl⟩

/-- Claim C3: a desired state with is_private known false and an
explicitly present access_control fails default resolution with the two
attribute errors naming is_private and access_control, and the create
pipeline never invokes the Remote Resource Store. -/
theorem conflict_validation_blocks_store (m : Model) (ac : AccessControl) (s : Store)
    (hp : m.IsPrivate = TFValue.value false)
    (hac : m.AccessControl = TFValue.value ac) :
  resolveModel m = Except.error conflictErrors ∧
  conflictErrors.map AttrError.path = ["is_private", "access_control"] ∧
  (createPipeline m s).1 = false := by
  have hres : resolveModel m = Except.error conflictErrors := by
    simp [resolveModel, planModifyObject, hp, hac, TFValue.valueBool, TFValue.isNull,
      TFValue.isUnknown, conflictErrors]
  refine ⟨hres, rfl, ?_⟩
  cases hv : schemaValidate m with
  | nil => simp [createPipeline, hv, hres]
  | cons e es => simp [createPipeline, hv]

/-- Claim C3 witness: the conflict fires at a concrete public model with
an explicit access_control value. -/
theorem conflict_validation_blocks_store_witness :
  resolveModel { blankModel with
      IsPrivate := TFValue.value false
      AccessControl := TFValue.value defaultAccessControl } = Except.error conflictErrors ∧
  conflictErrors.map AttrError.path = ["is_private", "access_control"] ∧
  (createPipeline { blankModel with
      IsPrivate := TFValue.value false
      AccessControl := TFValue.value defaultAccessControl } emptyStore).1 = false :=
  conflict_validation_blocks_store
    { blankModel with
      IsPrivate := TFValue.value false
      AccessControl := TFValue.value defaultAccessControl }
    defaultAccessControl emptyStore rfl rfl

/-- Claim C4: a desired state with is_private true and access_control
unset (null or unknown) resolves to the synthesized access control whose
four id lists are all empty. -/
theorem private_unset_synthesizes_access_control (m : Model) :
  resolveModel { m with IsPrivate := TFValue.value true, AccessControl := TFValue.null }
      = Except.ok { m with
          IsPrivate := TFValue.value true
          AccessControl := TFValue.value defaultAccessControl } ∧
  resolveModel { m with IsPrivate := TFValue.value true, AccessControl := TFValue.unknown }
      = Except.ok { m with
          IsPrivate := TFValue.value true
          AccessControl := TFValue.value defaultAccessControl } ∧
  defaultAccessControl
      = { read := { group_ids := [], user_ids := [] }
          write := { group_ids := [], user_ids := [] } } := ⟨rfl, rfl, rfl⟩

/-- Claim C5: a desired state with is_private false whose access_control
is null or unknown (so the conflict does not fire) resolves with
access_control forced to null. -/
theorem public_forces_access_control_null (m : Model) :
  resolveModel { m with IsPrivate := TFValue.value false, AccessControl := TFValue.null }
      = Except.ok { m with IsPrivate := TFValue.value false, AccessControl := TFValue.null } ∧
  resolveModel { m with IsPrivate := TFValue.value false, AccessControl := TFValue.unknown }
      = Except.ok { m with IsPrivate := TFValue.value false, AccessControl := TFValue.null } :=
  ⟨rfl, rfl⟩

/-- Claim C6: when the store's create succeeds but the returned resource
has a null identity, Create fails with the identity error and no state
is written. -/
theorem create_without_identity_fails (m : Model) :
  modelResourceCreate (Except.ok { m with ID := TFValue.null })
      = { newState := none
          errors := ["Error creating model: Model ID is null after creation"] } := rfl

/-- Claim C7: if the store's create succeeds returning a resource with
id "m-1", the reconciler accepts it, and an immediate Read of "m-1"
against the updated store succeeds and yields a resource whose merged id
is "m-1". -/
theorem create_then_read_roundtrip (eff : Model) (s : Store) (m : Model) (s2 : Store)
    (hc : Store.createModel s eff = Except.ok (m, s2))
    (hid : m.ID = TFValue.value "m-1") :
  (modelResourceCreate (Except.ok m)).newState = some m ∧
  ∃ r : Model, Store.getModel s2 "m-1" = Except.ok r ∧
    (modelResourceRead m (Except.ok r)).errors = [] ∧
    (modelResourceRead m (Except.ok r)).newState.map Model.ID = some (TFValue.value "m-1") := by
  simp only [Store.createModel, Except.ok.injEq, Prod.mk.injEq] at hc
  obtain ⟨hm, hs⟩ := hc
  subst hm
  subst hs
  refine ⟨?_, eff, ?_, ?_, ?_⟩
  · simp [modelResourceCreate, hid, TFValue.isNull]
  · simp [Store.getModel, hid, TFValue.valueString, List.lookup]
  · simp [modelResourceRead]
  · simp [modelResourceRead, hid, TFValue.isNull]

/-- Claim C7 witness: the round trip at a concrete effective model with
id "m-1" against the empty store. -/
theorem create_then_read_roundtrip_witness :
  (modelResourceCreate (Except.ok { blankModel with ID := TFValue.value "m-1" })).newState
      = some { blankModel with ID := TFValue.value "m-1" } ∧
  ∃ r : Model,
    Store.getModel { items := [("m-1", { blankModel with ID := TFValue.value "m-1" })] } "m-1"
        = Except.ok r ∧
    (modelResourceRead { blankModel with ID := TFValue.value "m-1" } (Except.ok r)).errors = [] ∧
    (modelResourceRead { blankModel with ID := TFValue.value "m-1" }
        (Except.ok r)).newState.map Model.ID = some (TFValue.value "m-1") :=
  create_then_read_roundtrip { blankModel with ID := TFValue.value "m-1" } emptyStore
    { blankModel with ID := TFValue.value "m-1" }
    { items := [("m-1", { blankModel with ID := TFValue.value "m-1" })] } rfl rfl

/-- Claim C8: the declared schema validators reject a known
params.reasoning_effort outside low, medium, high (and the create
pipeline then never reaches the store) and a known
params.function_calling outside native, while unset values and values
inside the enumerations pass. -/
theorem schema_enum_validation (s t : String) (m : Model) (st : Store)
    (hs : s ∉ (["low", "medium", "high"] : List String))
    (ht : t ∉ (["native"] : List String)) :
  schemaValidate (setReasoningEffort m (TFValue.value s))
      = ["Invalid Attribute Value Match: params.reasoning_effort must be one of: low, medium, high"] ∧
  (createPipeline (setReasoningEffort m (TFValue.value s)) st).1 = false ∧
  schemaValidateDS (setFunctionCalling m (TFValue.value t))
      = ["Invalid Attribute Value Match: params.function_calling must be one of: native"] ∧
  schemaValidate (setReasoningEffort m TFValue.null) = [] ∧
  schemaValidate (setReasoningEffort m TFValue.unknown) = [] ∧
  schemaValidate (setReasoningEffort m (TFValue.value "low")) = [] ∧
  schemaValidate (setReasoningEffort m (TFValue.value "medium")) = [] ∧
  schemaValidate (setReasoningEffort m (TFValue.value "high")) = [] ∧
  schemaValidateDS (setFunctionCalling m TFValue.null) = [] ∧
  schemaValidateDS (setFunctionCalling m (TFValue.value "native")) = [] := by
  simp only [List.mem_cons, List.mem_singleton, not_or] at hs ht
  have h1 : schemaValidate (setReasoningEffort m (TFValue.value s))
      = ["Invalid Attribute Value Match: params.reasoning_effort must be one of: low, medium, high"] := by
    simp [schemaValidate, setReasoningEffort, oneOfCheck, hs.1, hs.2.1, hs.2.2]
  refine ⟨h1, ?_, ?_, rfl, rfl, rfl, rfl, rfl, rfl, rfl⟩
  · simp [createPipeline, h1]
  · simp [schemaValidateDS, setFunctionCalling, oneOfCheck, ht]

/-- Claim C8 witness: the enumeration checks at the concrete values
"extreme" and "manual" on the blank model. -/
theorem schema_enum_validation_witness :
  schemaValidate (setReasoningEffort blankModel (TFValue.value "extreme"))
      = ["Invalid Attribute Value Match: params.reasoning_effort must be one of: low, medium, high"] ∧
  (createPipeline (setReasoningEffort blankModel (TFValue.value "extreme")) emptyStore).1 = false ∧
  schemaValidateDS (setFunctionCalling blankModel (TFValue.value "manual"))
      = ["Invalid Attribute Value Match: params.function_calling must be one of: native"] ∧
  schemaValidate (setReasoningEffort blankModel TFValue.null) = [] ∧
  schemaValidate (setReasoningEffort blankModel TFValue.unknown) = [] ∧
  schemaValidate (setReasoningEffort blankModel (TFValue.value "low")) = [] ∧
  schemaValidate (setReasoningEffort blankModel (TFValue.value "medium")) = [] ∧
  schemaValidate (setReasoningEffort blankModel (TFValue.value "high")) = [] ∧
  schemaValidateDS (setFunctionCalling blankModel TFValue.null) = [] ∧
  schemaValidateDS (setFunctionCalling blankModel (TFValue.value "native")) = [] :=
  schema_enum_validation "extreme" "manual" blankModel emptyStore (by decide) (by decide)

/-- Claim C9: the Default Resolver treats a null or unknown is_private
exactly as known false: the same resolution function results as for
value false, in particular the mutual-exclusion error on an explicit
access_control and a forced-null access_control otherwise. -/
theorem null_unknown_privacy_like_false (ac : TFValue AccessControl) (a : AccessControl) :
  planModifyObject TFValue.null ac = planModifyObject (TFValue.value false) ac ∧
  planModifyObject TFValue.unknown ac = planModifyObject (TFValue.value false) ac ∧
  planModifyObject TFValue.null (TFValue.value a) = Except.error conflictErrors ∧
  planModifyObject TFValue.unknown (TFValue.value a) = Except.error conflictErrors ∧
  planModifyObject TFValue.null TFValue.null = Except.ok TFValue.null ∧
  planModifyObject TFValue.null TFValue.unknown = Except.ok TFValue.null ∧
  planModifyObject TFValue.unknown TFValue.null = Except.ok TFValue.null ∧
  planModifyObject TFValue.unknown TFValue.unknown = Except.ok TFValue.null :=
  ⟨by cases ac <;> rfl, by cases ac <;> rfl, rfl, rfl, rfl, rfl, rfl, rfl⟩

/-- Claim C10: in the model data source Read, when the store's get
returns no error but a nil model, the nil model is committed to state
first and the not-found error is added only afterwards: the effect list
is exactly state-set followed by the error. -/
theorem data_source_read_state_before_error (config : Model) :
  modelDataSourceRead config (Except.ok none)
      = [ Effect.setState none
        , Effect.addError ("Error reading model: No model found with name: "
            ++ config.ID.valueString) ] := rfl
